import Mathlib

/-!
Shallow embedding of the VeriZexe UTXO transaction circuit builder
(`src/circuit/utxo.rs`, `DPCUtxoCircuit`) and of the preprocessing entry
point (`DPCUtxoCircuit::build_for_preprocessing`, `src/errors.rs`).

Modelling choices.

The circuit builder materializes every witness and public value as a field
variable and then emits gates over those variables.  All intermediate
variables (equality bits from `check_equal`, the is-zero bit from
`check_is_zero`, the derived commitments, roots, nullifiers and nonces) are
deterministic functions of the witness and the public input, and the gadget
library (jellyfish) constrains each of them to its unique sound value.  The
embedding therefore works at the value level: it evaluates, for a given
witness and public input, whether every emitted gate is satisfied.  This is
exactly the semantics of `build` followed by `check_circuit_satisfiability`
on the assignment the builder created, which is the notion of
satisfiability used by the specification and its testable properties.

The cryptographic gadgets (rescue sponge, commitment, Merkle-root
recomputation, record-commitment derivation, nullifier derivation and
diversifier derivation) live in external crates (`jf_primitives`,
`jf_plonk`) and in repository modules that are treated as black boxes by
`utxo.rs`; they are abstracted as a `Gadgets` parameter, and concrete
executable instantiations are supplied for witnesses and counterexamples.

Gates are modelled by the field equations the backend emits:
`bool_gate x` is `x * x = x`, `logic_or_gate a b` is `a + b - a * b = 1`,
`equal_gate a b` is `a = b`, and the bit returned by `check_equal`
(resp. `check_is_zero`) is `1` when the compared values are equal
(resp. when the value is zero) and `0` otherwise, which is the unique
value the gadget's internal constraints admit.

Record openings are modelled at the circuit level (`RecordOpeningVar`):
every slot, including the dummy flag, is a field element.  The Rust
cleartext type stores `is_dummy` as a machine boolean which the builder
lifts to a field variable; satisfiability of the emitted constraint
system, however, ranges over field-valued assignments, and the claims
about boolean-ness are claims about that range.  The payload array is
modelled by its two circuit-inspected slots `data0` (asset type) and
`data1` (amount) plus the remaining entries `dataRest`, which only flow
into the abstract commitment gadget.

A Rust panic (out-of-bounds index) is modelled by `Option.none`; every
other step of `build` is total.
-/

/-- Circuit-level payload of a record: `data[0]` is the asset type,
`data[1]` the amount, `dataRest` the remaining payload entries, and
`isDummy` the dummy flag, all field elements. -/
structure Payload (F : Type) where
  isDummy : F
  data0 : F
  data1 : F
  dataRest : List F
deriving DecidableEq, Repr

/-- Circuit-level record opening (`RecordOpeningVar`). -/
structure RecordOpening (F : Type) where
  addr : F
  payload : Payload F
  pidBirth : F
  pidDeath : F
  nonce : F
  blinding : F
deriving DecidableEq, Repr

/-- Proof-generation key: an authorization key in the embedded group and a
nullifier key in the field. -/
structure ProofGenerationKey (F G : Type) where
  ak : G
  nk : F
deriving DecidableEq, Repr

/-- A spent note (`NoteInputVar`): the record opening, the accumulator
membership witness (leaf uid and sibling path), the owner's
proof-generation key, the authorization randomizer (a group element) and
the diversifier randomizer (a field element). -/
structure NoteInput (F G : Type) where
  ro : RecordOpening F
  uid : F
  merklePath : List F
  pgk : ProofGenerationKey F G
  authorizationRandomizer : G
  diversifierRandomizer : F
deriving DecidableEq, Repr

/-- The external gadget functions used by the builder, treated as black
boxes exactly as `utxo.rs` treats them: each is a deterministic function
whose in-circuit version constrains its output variable to the function's
value.  `sponge` is the no-padding rescue sponge with output length 1;
`commit` takes the message vector and the blinding. -/
structure Gadgets (F G : Type) where
  deriveCommitment : RecordOpening F → F
  merkleRoot : F → F → List F → F
  nullify : RecordOpening F → F → F
  deriveDiversifier : ProofGenerationKey F G → F → F
  sponge : List F → F
  commit : List F → F → F

/-- Witness of the UTXO circuit (`DPCUtxoWitness`): the entire input list
(index 0 is the fee input), the entire output record opening list (index 0
is the fee change) and the two blinding factors. -/
structure DPCUtxoWitness (F G : Type) where
  entireInputs : List (NoteInput F G)
  entireOutputRecordsOpenings : List (RecordOpening F)
  blindingLocalData : F
  blindingPredicates : F
deriving DecidableEq, Repr

/-- Public input of the UTXO circuit (`DPCUtxoPublicInput`). -/
structure DPCUtxoPublicInput (F G : Type) where
  inputNullifiers : List F
  outputCommitments : List F
  commitmentPredicates : F
  commitmentLocalData : F
  root : F
  fee : F
  memo : List F
  authorizationVerificationKey : G
deriving DecidableEq, Repr

set_option linter.unusedSectionVars false

variable {F G : Type} [Field F] [DecidableEq F] [AddCommGroup G] [DecidableEq G]

/-- Value-level semantics of `DPCUtxoCircuit::prove_spend`: evaluates the
gates it emits on the built assignment and returns, next to that
satisfaction bit, the derived record commitment and the randomized
authorization key, as the Rust function returns those two variables.
Gate by gate: booleanity of the dummy flag; the unconditional fee-input
gates when `isFeeInput` is set; the membership or-gate; the nullifier
or-gate; the diversifier or-gate.  The authorization randomization
`ak + rho_auth` is computed unconditionally and never gated. -/
def prove_spend (g : Gadgets F G) (input : NoteInput F G) (publicNullifier publicRoot : F)
    (isFeeInput : Bool) (nativeAssetType : F) : Bool × F × G :=
  let d := input.ro.payload.isDummy
  let boolGate := decide (d * d = d)
  let recordCommitment := g.deriveCommitment input.ro
  let derivedRoot := g.merkleRoot input.uid recordCommitment input.merklePath
  let feeGates :=
    if isFeeInput then
      decide (d = 0) && decide (input.ro.payload.data0 = nativeAssetType)
    else true
  let isInAcc : F := if derivedRoot = publicRoot then 1 else 0
  let accGate := decide (d + isInAcc - d * isInAcc = 1)
  let nullifier := g.nullify input.ro input.pgk.nk
  let correctNullifier : F := if nullifier = publicNullifier then 1 else 0
  let nullifierGate := decide (d + correctNullifier - d * correctNullifier = 1)
  let randAuthKey := input.pgk.ak + input.authorizationRandomizer
  let diversifier := g.deriveDiversifier input.pgk input.diversifierRandomizer
  let correctDiversifier : F := if diversifier = input.ro.addr then 1 else 0
  let diversifierGate := decide (d + correctDiversifier - d * correctDiversifier = 1)
  (boolGate && feeGates && accGate && nullifierGate && diversifierGate,
    recordCommitment, randAuthKey)

/-- Value-level semantics of `DPCUtxoCircuit::prove_output`.  The dummy
bit is `check_is_zero` followed by `logic_neg`, so it is `1` exactly when
the flag is nonzero; the derived nonce is the no-padding sponge of
`[position, first nullifier, 1]` with output length 1; the nonce and
commitment checks are or-gated with the dummy bit; the fee-change gates
are unconditional equality gates when `isFeeChg` is set. -/
def prove_output (g : Gadgets F G) (output : RecordOpening F) (outputRc : F)
    (isFeeChg : Bool) (nativeAssetType : F) (positionInNote : Nat) (firstNullifier : F) :
    Bool :=
  let isNotDummy : F := if output.payload.isDummy = 0 then 1 else 0
  let isDummy : F := 1 - isNotDummy
  let iVar : F := (positionInNote : F)
  let derivedNonce := g.sponge [iVar, firstNullifier, 1]
  let correctNonce : F := if derivedNonce = output.nonce then 1 else 0
  let nonceGate := decide (correctNonce + isDummy - correctNonce * isDummy = 1)
  let derivedOutputRc := g.deriveCommitment output
  let correctRc : F := if derivedOutputRc = outputRc then 1 else 0
  let rcGate := decide (correctRc + isDummy - correctRc * isDummy = 1)
  let feeGates :=
    if isFeeChg then
      decide (output.payload.isDummy = 0) && decide (output.payload.data0 = nativeAssetType)
    else true
  nonceGate && rcGate && feeGates

/-- The input loop of `build`: it iterates over the inputs zipped with the
public nullifiers (so it truncates at the shorter list, like
`iter().zip(...)`), calls `prove_spend` with the `is_fee_ro` flag that is
true only on the first iteration, and collects the per-input results. -/
def spendLoop (g : Gadgets F G) (nativeAssetType rootVar : F) :
    List (NoteInput F G) → List F → Bool → List (Bool × F × G)
  | [], _, _ => []
  | _ :: _, [], _ => []
  | input :: rest, nf :: nfs, isFeeRo =>
      prove_spend g input nf rootVar isFeeRo nativeAssetType ::
        spendLoop g nativeAssetType rootVar rest nfs false

/-- The output loop of `build`: iterates over the output openings zipped
with the public output commitments, calling `prove_output` with the
`is_fee_chg_ro` flag true only at position 0 and the running position
index. -/
def outputLoop (g : Gadgets F G) (nativeAssetType firstNullifier : F) :
    List (RecordOpening F) → List F → Bool → Nat → Bool
  | [], _, _, _ => true
  | _ :: _, [], _, _ => true
  | ro :: ros, rc :: rcs, isFeeChg, pos =>
      prove_output g ro rc isFeeChg nativeAssetType pos firstNullifier &&
        outputLoop g nativeAssetType firstNullifier ros rcs false (pos + 1)

/-- The output phase of `build`.  The loop body reads
`public_input_var.nullifiers[0]`, so the first public nullifier is
demanded (and its absence panics, modelled by `none`) exactly when the
zipped output list is nonempty. -/
def outputPhase (g : Gadgets F G) (nativeAssetType : F) (w : DPCUtxoWitness F G)
    (p : DPCUtxoPublicInput F G) : Option Bool :=
  match w.entireOutputRecordsOpenings, p.outputCommitments with
  | [], _ => some true
  | _ :: _, [] => some true
  | ro :: ros, rc :: rcs =>
      (p.inputNullifiers.get? 0).map fun nf0 =>
        outputLoop g nativeAssetType nf0 (ro :: ros) (rc :: rcs) true 0

/-- The fee block of `build`: it indexes `inputs[0]` and
`output_records_openings[0]` unconditionally (`none` models the panic on
an empty list) and emits the equality gate
`data[1] of the fee input - data[1] of the fee change = fee`
as exact field subtraction. -/
def feeGateCheck (w : DPCUtxoWitness F G) (p : DPCUtxoPublicInput F G) : Option Bool :=
  (w.entireInputs.get? 0).bind fun input0 =>
    (w.entireOutputRecordsOpenings.get? 0).map fun output0 =>
      decide (input0.ro.payload.data1 - output0.payload.data1 = p.fee)

/-- The message vector committed by the local-data block of `build`:
the record commitments derived in-circuit for each processed input, then
the public output commitment variables pushed by the output loop, then
the memo. -/
def compressedLocalData (g : Gadgets F G) (nativeAssetType : F) (w : DPCUtxoWitness F G)
    (p : DPCUtxoPublicInput F G) : List F :=
  (spendLoop g nativeAssetType p.root w.entireInputs p.inputNullifiers true).map
      (fun r => r.2.1)
    ++ (w.entireOutputRecordsOpenings.zip p.outputCommitments).map Prod.snd
    ++ p.memo

/-- The local-data commitment gate of `build`. -/
def localDataCheck (g : Gadgets F G) (nativeAssetType : F) (w : DPCUtxoWitness F G)
    (p : DPCUtxoPublicInput F G) : Bool :=
  decide (g.commit (compressedLocalData g nativeAssetType w p) w.blindingLocalData
    = p.commitmentLocalData)

/-- The pid vector committed by the predicates block of `build`: the
death pids of all inputs but the first, then the birth pids of all
outputs but the first. -/
def pidsList (w : DPCUtxoWitness F G) : List F :=
  (w.entireInputs.drop 1).map (fun input => input.ro.pidDeath)
    ++ (w.entireOutputRecordsOpenings.drop 1).map (fun ro => ro.pidBirth)

/-- The predicates commitment gate of `build`. -/
def predicatesCheck (g : Gadgets F G) (w : DPCUtxoWitness F G)
    (p : DPCUtxoPublicInput F G) : Bool :=
  decide (g.commit (pidsList w) w.blindingPredicates = p.commitmentPredicates)

/-- The aggregated authorization key gate of `build`: the randomized keys
returned by `prove_spend` are folded with in-circuit group additions
starting from the neutral point, and the result is compared with the
public key by `point_equal_gate` (both coordinates, i.e. equality in the
group). -/
def derivedAuthKeyCheck (g : Gadgets F G) (nativeAssetType : F) (w : DPCUtxoWitness F G)
    (p : DPCUtxoPublicInput F G) : Bool :=
  decide (p.authorizationVerificationKey =
    (spendLoop g nativeAssetType p.root w.entireInputs p.inputNullifiers true).foldl
      (fun acc r => acc + r.2.2) 0)

/-- Value-level semantics of `DPCUtxoCircuit::build` followed by
`check_circuit_satisfiability` on the assignment the builder created:
`none` models a Rust panic from an out-of-bounds index, `some b` the built
circuit with `b` recording whether every emitted gate is satisfied. -/
def buildCheck (g : Gadgets F G) (nativeAssetType : F) (w : DPCUtxoWitness F G)
    (p : DPCUtxoPublicInput F G) : Option Bool :=
  let spendResults := spendLoop g nativeAssetType p.root w.entireInputs p.inputNullifiers true
  let spendOk := spendResults.all fun r => r.1
  let authOk := derivedAuthKeyCheck g nativeAssetType w p
  (outputPhase g nativeAssetType w p).bind fun outOk =>
    (feeGateCheck w p).bind fun feeOk =>
      some (spendOk && authOk && outOk && feeOk &&
        localDataCheck g nativeAssetType w p && predicatesCheck g w p)

/-- Error type of the DPC API (`src/errors.rs`), message payloads
modelled as strings. -/
inductive DPCApiError where
  | FailedSnark (msg : String)
  | FailedPrimitives (msg : String)
  | FailedSerialization (msg : String)
  | OverOrUnderFlow (msg : String)
  | GeneralError (msg : String)
  | InvalidParameters (msg : String)
  | FailedReceiverMemoSignature (msg : String)
  | FailedAuthorizationSignature (msg : String)
  | FailedTransactionVerification (msg : String)
  | IoError (msg : String)
  | InvalidParameter (msg : String)
  | DeserializationError (msg : String)
  | IncorrectFee (msg : String)
  | ParametersGenerationError (msg : String)
  | InternalError (msg : String)
deriving DecidableEq, Repr

/-- Discriminator for the `InternalError` variant. -/
def isInternalError : DPCApiError → Bool
  | .InternalError _ => true
  | _ => false

/-- Modelled from the spec: `DPCUtxoPublicInput::from_witness` (crate
module `proofs/utxo.rs`, not under `src/`) derives the public input from
the dummy witness and may fail with a `DPCApiError`, and `Self::build`
returns a `PlonkError` (modelled as a string) on failure; both outcomes
are taken as parameters.  The control flow mirrors
`DPCUtxoCircuit::build_for_preprocessing` in `src/circuit/utxo.rs`: the
`from_witness` result is propagated by the question-mark operator
unchanged, while an error from `Self::build` is replaced by
`InternalError` carrying the diagnostic message. -/
def build_for_preprocessing {P C : Type} (fromWitnessResult : Except DPCApiError P)
    (buildResult : P → Except String C) (diagnostic : String) : Except DPCApiError C :=
  match fromWitnessResult with
  | .error e => .error e
  | .ok pubInput =>
      match buildResult pubInput with
      | .error _ => .error (.InternalError diagnostic)
      | .ok c => .ok c

/-- Concrete field for witnesses and counterexamples. -/
abbrev F101 := ZMod 101

instance : Fact (Nat.Prime 101) := ⟨by norm_num⟩

/-- Concrete executable instantiation of the external gadget functions,
used only to evaluate the circuit on explicit data; every theorem about
the builder is proved for arbitrary gadgets. -/
def testGadgets : Gadgets F101 F101 where
  deriveCommitment ro :=
    2 * ro.addr + 3 * ro.payload.data0 + 5 * ro.payload.data1 + 7 * ro.payload.isDummy
      + 11 * ro.pidBirth + 13 * ro.pidDeath + 17 * ro.nonce + 19 * ro.blinding
      + ro.payload.dataRest.sum
  merkleRoot uid elem path := 23 * uid + 29 * elem + path.foldl (fun a x => 31 * a + x) 0
  nullify ro nk := 37 * nk + 41 * ro.nonce + 43 * ro.blinding + ro.addr
  deriveDiversifier pgk r := pgk.nk + 47 * r
  sponge l := l.foldl (fun a x => 3 * a + x) 1
  commit l b := (b :: l).foldl (fun a x => 5 * a + x) 2

/-- Key of the fee input of the concrete satisfying instance. -/
def happyPgk0 : ProofGenerationKey F101 F101 := ⟨3, 5⟩

/-- Fee-input record opening of the concrete satisfying instance: not
dummy, native asset type 7, amount 15, address derived with the
diversifier randomizer 9. -/
def happyRo0 : RecordOpening F101 :=
  { addr := testGadgets.deriveDiversifier happyPgk0 9
    payload := ⟨0, 7, 15, []⟩
    pidBirth := 21
    pidDeath := 22
    nonce := 30
    blinding := 31 }

/-- Fee input of the concrete satisfying instance. -/
def happyInput0 : NoteInput F101 F101 :=
  { ro := happyRo0
    uid := 2
    merklePath := [40, 41]
    pgk := happyPgk0
    authorizationRandomizer := 4
    diversifierRandomizer := 9 }

/-- Key of the second input of the concrete satisfying instance. -/
def happyPgk1 : ProofGenerationKey F101 F101 := ⟨13, 17⟩

/-- Second (dummy) input record opening of the concrete satisfying
instance. -/
def happyRo1 : RecordOpening F101 :=
  { addr := 50
    payload := ⟨1, 0, 0, []⟩
    pidBirth := 51
    pidDeath := 52
    nonce := 53
    blinding := 54 }

/-- Second (dummy) input of the concrete satisfying instance. -/
def happyInput1 : NoteInput F101 F101 :=
  { ro := happyRo1
    uid := 3
    merklePath := [60, 61]
    pgk := happyPgk1
    authorizationRandomizer := 6
    diversifierRandomizer := 12 }

/-- First public nullifier of the concrete satisfying instance. -/
def happyNf0 : F101 := testGadgets.nullify happyRo0 happyPgk0.nk

/-- Second public nullifier of the concrete satisfying instance. -/
def happyNf1 : F101 := testGadgets.nullify happyRo1 happyPgk1.nk

/-- Accumulator root of the concrete satisfying instance, recomputed from
the fee input's membership witness. -/
def happyRoot : F101 :=
  testGadgets.merkleRoot happyInput0.uid (testGadgets.deriveCommitment happyRo0)
    happyInput0.merklePath

/-- Fee-change output of the concrete satisfying instance: not dummy,
native asset type 7, amount 10, nonce derived from position 0 and the
first nullifier. -/
def happyOut0 : RecordOpening F101 :=
  { addr := 70
    payload := ⟨0, 7, 10, []⟩
    pidBirth := 71
    pidDeath := 72
    nonce := testGadgets.sponge [0, happyNf0, 1]
    blinding := 73 }

/-- Second output of the concrete satisfying instance.  Its dummy flag is
the field element 2, which is neither 0 nor 1: the output subcircuit
emits no booleanity gate, so the nonzero flag simply routes this output
through the dummy bypass. -/
def happyOut1 : RecordOpening F101 :=
  { addr := 80
    payload := ⟨2, 0, 0, []⟩
    pidBirth := 81
    pidDeath := 82
    nonce := 83
    blinding := 84 }

/-- Public commitment of the fee-change output of the concrete satisfying
instance. -/
def happyOutCm0 : F101 := testGadgets.deriveCommitment happyOut0

/-- Witness of the concrete satisfying instance: two inputs (fee input
and a dummy input), two outputs (fee change and an output whose dummy
flag is 2). -/
def happyW : DPCUtxoWitness F101 F101 :=
  { entireInputs := [happyInput0, happyInput1]
    entireOutputRecordsOpenings := [happyOut0, happyOut1]
    blindingLocalData := 91
    blindingPredicates := 92 }

/-- Public input of the concrete satisfying instance, derived from the
witness exactly as every gate demands. -/
def happyP : DPCUtxoPublicInput F101 F101 :=
  { inputNullifiers := [happyNf0, happyNf1]
    outputCommitments := [happyOutCm0, 90]
    commitmentPredicates := testGadgets.commit [happyRo1.pidDeath, happyOut1.pidBirth] 92
    commitmentLocalData := testGadgets.commit
      ([testGadgets.deriveCommitment happyRo0, testGadgets.deriveCommitment happyRo1]
        ++ [happyOutCm0, 90] ++ [50, 51]) 91
    root := happyRoot
    fee := 5
    memo := [50, 51]
    authorizationVerificationKey :=
      (happyPgk0.ak + happyInput0.authorizationRandomizer)
        + (happyPgk1.ak + happyInput1.authorizationRandomizer) }

/-- A fee-slot input whose dummy flag is set: used to refute the claim
that the per-input constraints are satisfiable whenever the flag is 1. -/
def cexDummyFeeInput : NoteInput F101 F101 :=
  { ro :=
      { addr := 10
        payload := ⟨1, 7, 0, []⟩
        pidBirth := 1
        pidDeath := 2
        nonce := 3
        blinding := 4 }
    uid := 5
    merklePath := [6]
    pgk := ⟨8, 9⟩
    authorizationRandomizer := 11
    diversifierRandomizer := 12 }

/-- Minimal one-input one-output witness used for the fee-balance
wrap-around witness and the no-panic counterexample. -/
def wrapInput : NoteInput F101 F101 :=
  { ro :=
      { addr := 0
        payload := ⟨0, 7, 0, []⟩
        pidBirth := 0
        pidDeath := 0
        nonce := 0
        blinding := 0 }
    uid := 0
    merklePath := []
    pgk := ⟨0, 0⟩
    authorizationRandomizer := 0
    diversifierRandomizer := 0 }

/-- Output record with amount 1 for the fee-balance wrap-around witness. -/
def wrapOut : RecordOpening F101 :=
  { addr := 0
    payload := ⟨0, 7, 1, []⟩
    pidBirth := 0
    pidDeath := 0
    nonce := 0
    blinding := 0 }

/-- One-input one-output witness wrapper around `wrapInput`/`wrapOut`. -/
def wrapW : DPCUtxoWitness F101 F101 :=
  { entireInputs := [wrapInput]
    entireOutputRecordsOpenings := [wrapOut]
    blindingLocalData := 0
    blindingPredicates := 0 }

/-- Public input whose fee is the wrap-around value 0 - 1 = 100 in the
field of 101 elements. -/
def wrapP : DPCUtxoPublicInput F101 F101 :=
  { inputNullifiers := [0]
    outputCommitments := [0]
    commitmentPredicates := 0
    commitmentLocalData := 0
    root := 0
    fee := 100
    memo := []
    authorizationVerificationKey := 0 }

/-- Public input with empty nullifier and output-commitment lists: the
input and output loops then run zero iterations, `nullifiers[0]` is never
read, and `build` completes without panicking. -/
def emptyListsP : DPCUtxoPublicInput F101 F101 :=
  { inputNullifiers := []
    outputCommitments := []
    commitmentPredicates := 0
    commitmentLocalData := 0
    root := 0
    fee := 0
    memo := []
    authorizationVerificationKey := 0 }

/-- Characterization of the or-gate equation `d + b - d * b = 1` when the
second operand is the bit produced by `check_equal`: with `b` boolean the
equation holds exactly when `d = 1` or the compared values are equal,
whatever field element `d` is. -/
lemma orGate_iff (d : F) (b : Prop) [Decidable b] :
    (d + (if b then (1 : F) else 0) - d * (if b then (1 : F) else 0) = 1) ↔ (d = 1 ∨ b) := by
  by_cases hb : b
  · simp only [hb, if_pos, mul_one, or_true, iff_true]
    ring
  · simp [hb]

/-- Characterization of the or-gate equation when both operands are bits
produced by gadgets (`check_equal` against the negated is-zero bit). -/
lemma orGate_bits_iff (a b : Prop) [Decidable a] [Decidable b] :
    ((if a then (1 : F) else 0) + (if b then (1 : F) else 0)
      - (if a then (1 : F) else 0) * (if b then (1 : F) else 0) = 1) ↔ (a ∨ b) := by
  by_cases ha : a <;> by_cases hb : b <;> simp [ha, hb]

/-- The boolean gate `x * x = x` holds in a field exactly for `0` and `1`. -/
lemma boolGate_iff (d : F) : d * d = d ↔ d = 0 ∨ d = 1 := by
  constructor
  · intro h
    have h0 : d * (d - 1) = 0 := by ring_nf; linear_combination h
    rcases mul_eq_zero.mp h0 with h1 | h1
    · exact Or.inl h1
    · exact Or.inr (sub_eq_zero.mp h1)
  · rintro (h | h) <;> simp [h]

/-- Unfolded characterization of the gates emitted by `prove_spend`. -/
lemma prove_spend_true_iff (g : Gadgets F G) (input : NoteInput F G) (nf rootVar : F)
    (isFee : Bool) (native : F) :
    (prove_spend g input nf rootVar isFee native).1 = true ↔
      (input.ro.payload.isDummy * input.ro.payload.isDummy = input.ro.payload.isDummy ∧
       (isFee = true →
         input.ro.payload.isDummy = 0 ∧ input.ro.payload.data0 = native) ∧
       (input.ro.payload.isDummy = 1 ∨
         g.merkleRoot input.uid (g.deriveCommitment input.ro) input.merklePath = rootVar) ∧
       (input.ro.payload.isDummy = 1 ∨ g.nullify input.ro input.pgk.nk = nf) ∧
       (input.ro.payload.isDummy = 1 ∨
         g.deriveDiversifier input.pgk input.diversifierRandomizer = input.ro.addr)) := by
  cases isFee <;>
    simp [prove_spend, Bool.and_eq_true, decide_eq_true_eq, and_assoc, -mul_ite, -ite_mul,
      orGate_iff]

/-- The record commitment returned by `prove_spend` is the derived record
commitment of the opening. -/
lemma prove_spend_rc (g : Gadgets F G) (input : NoteInput F G) (nf rootVar : F)
    (isFee : Bool) (native : F) :
    (prove_spend g input nf rootVar isFee native).2.1 = g.deriveCommitment input.ro := rfl

/-- The randomized authorization key returned by `prove_spend` is
`ak + rho_auth`, computed unconditionally. -/
lemma prove_spend_ak (g : Gadgets F G) (input : NoteInput F G) (nf rootVar : F)
    (isFee : Bool) (native : F) :
    (prove_spend g input nf rootVar isFee native).2.2 =
      input.pgk.ak + input.authorizationRandomizer := rfl

/-- Unfolded characterization of the gates emitted by `prove_output`: the
dummy disjunct is `isDummy` being nonzero, because the bit comes from
`check_is_zero` negated, not from a booleanity gate. -/
lemma prove_output_true_iff (g : Gadgets F G) (ro : RecordOpening F) (rc : F)
    (isFeeChg : Bool) (native : F) (pos : Nat) (nf0 : F) :
    prove_output g ro rc isFeeChg native pos nf0 = true ↔
      ((ro.payload.isDummy ≠ 0 ∨ g.sponge [(pos : F), nf0, 1] = ro.nonce) ∧
       (ro.payload.isDummy ≠ 0 ∨ g.deriveCommitment ro = rc) ∧
       (isFeeChg = true → ro.payload.isDummy = 0 ∧ ro.payload.data0 = native)) := by
  cases isFeeChg <;>
    by_cases hd : ro.payload.isDummy = 0 <;>
      simp [prove_output, hd, orGate_bits_iff, Bool.and_eq_true, decide_eq_true_eq,
        and_assoc]

/-- When the nullifier list has the length of the input list, the
randomized authorization keys collected by the input loop are exactly
`ak + rho_auth` for every input, in input order. -/
lemma spendLoop_map_ak (g : Gadgets F G) (native rootVar : F) :
    ∀ (ins : List (NoteInput F G)) (nfs : List F) (flag : Bool),
      nfs.length = ins.length →
      (spendLoop g native rootVar ins nfs flag).map (fun r => r.2.2) =
        ins.map (fun input => input.pgk.ak + input.authorizationRandomizer) := by
  intro ins
  induction ins with
  | nil => intro nfs flag _; simp [spendLoop]
  | cons i is ih =>
      intro nfs flag hlen
      cases nfs with
      | nil => simp at hlen
      | cons nf nfs' =>
          simp only [spendLoop, List.map_cons, prove_spend_ak]
          rw [ih nfs' false (by simpa using hlen)]

/-- When the nullifier list has the length of the input list, the record
commitments collected by the input loop are the derived commitments of
every input opening, in input order. -/
lemma spendLoop_map_rc (g : Gadgets F G) (native rootVar : F) :
    ∀ (ins : List (NoteInput F G)) (nfs : List F) (flag : Bool),
      nfs.length = ins.length →
      (spendLoop g native rootVar ins nfs flag).map (fun r => r.2.1) =
        ins.map (fun input => g.deriveCommitment input.ro) := by
  intro ins
  induction ins with
  | nil => intro nfs flag _; simp [spendLoop]
  | cons i is ih =>
      intro nfs flag hlen
      cases nfs with
      | nil => simp at hlen
      | cons nf nfs' =>
          simp only [spendLoop, List.map_cons, prove_spend_rc]
          rw [ih nfs' false (by simpa using hlen)]

/-- Folding group addition from an accumulator equals adding the sum. -/
lemma foldl_add_snd (l : List (Bool × F × G)) :
    ∀ a : G, l.foldl (fun acc r => acc + r.2.2) a = a + (l.map (fun r => r.2.2)).sum := by
  induction l with
  | nil => intro a; simp
  | cons x xs ih =>
      intro a
      simp only [List.foldl_cons, List.map_cons, List.sum_cons, ih, add_assoc]

/-- Zipping with a list of the same length and projecting the second
components gives back that list. -/
lemma zip_map_snd {α β : Type} : ∀ (l1 : List α) (l2 : List β),
    l2.length = l1.length → (l1.zip l2).map Prod.snd = l2 := by
  intro l1
  induction l1 with
  | nil => intro l2 h; cases l2 with
      | nil => rfl
      | cons b bs => simp at h
  | cons a as ih =>
      intro l2 h
      cases l2 with
      | nil => simp at h
      | cons b bs => simp [List.zip_cons_cons, ih bs (by simpa using h)]

/-- If every gate of the input loop is satisfied and the lists have equal
length, then every input was run through `prove_spend` (with some flag and
nullifier) successfully. -/
lemma spendLoop_all_mem (g : Gadgets F G) (native rootVar : F) :
    ∀ (ins : List (NoteInput F G)) (nfs : List F) (flag : Bool),
      nfs.length = ins.length →
      (spendLoop g native rootVar ins nfs flag).all (fun r => r.1) = true →
      ∀ input ∈ ins, ∃ nf f,
        (prove_spend g input nf rootVar f native).1 = true := by
  intro ins
  induction ins with
  | nil => intro nfs flag _ _ input h; simp at h
  | cons i is ih =>
      intro nfs flag hlen hall input hmem
      cases nfs with
      | nil => simp at hlen
      | cons nf nfs' =>
          simp only [spendLoop, List.all_cons, Bool.and_eq_true] at hall
          rcases List.mem_cons.mp hmem with h | h
          · exact ⟨nf, flag, h ▸ hall.1⟩
          · exact ih nfs' false (by simpa using hlen) hall.2 input h

/-- Splitting `buildCheck` at `some true` into its six gate groups. -/
lemma buildCheck_some_true_iff (g : Gadgets F G) (native : F) (w : DPCUtxoWitness F G)
    (p : DPCUtxoPublicInput F G) :
    buildCheck g native w p = some true ↔
      ((spendLoop g native p.root w.entireInputs p.inputNullifiers true).all
          (fun r => r.1) = true ∧
        derivedAuthKeyCheck g native w p = true ∧
        outputPhase g native w p = some true ∧
        feeGateCheck w p = some true ∧
        localDataCheck g native w p = true ∧
        predicatesCheck g w p = true) := by
  cases hout : outputPhase g native w p with
  | none => simp [buildCheck, hout]
  | some ob =>
      cases hfee : feeGateCheck w p with
      | none => simp [buildCheck, hout, hfee]
      | some fb =>
          cases ob <;> cases fb <;>
            simp [buildCheck, hout, hfee, Bool.and_eq_true, and_assoc, and_comm,
              and_left_comm]

/-- The build pipeline returns `none` exactly when one of its two
unconditional index accesses would panic. -/
lemma buildCheck_none_iff (g : Gadgets F G) (native : F) (w : DPCUtxoWitness F G)
    (p : DPCUtxoPublicInput F G) :
    buildCheck g native w p = none ↔
      (outputPhase g native w p = none ∨ feeGateCheck w p = none) := by
  cases hout : outputPhase g native w p with
  | none => simp [buildCheck, hout]
  | some ob =>
      cases hfee : feeGateCheck w p with
      | none => simp [buildCheck, hout, hfee]
      | some fb => simp [buildCheck, hout, hfee]

/-- The output phase demands the first public nullifier exactly when the
zipped output list is nonempty. -/
lemma outputPhase_none_iff (g : Gadgets F G) (native : F) (w : DPCUtxoWitness F G)
    (p : DPCUtxoPublicInput F G) :
    outputPhase g native w p = none ↔
      (w.entireOutputRecordsOpenings ≠ [] ∧ p.outputCommitments ≠ [] ∧
        p.inputNullifiers = []) := by
  cases hros : w.entireOutputRecordsOpenings with
  | nil => simp [outputPhase, hros]
  | cons ro ros =>
      cases hrcs : p.outputCommitments with
      | nil => simp [outputPhase, hros, hrcs]
      | cons rc rcs =>
          cases hnf : p.inputNullifiers with
          | nil => simp [outputPhase, hros, hrcs, hnf]
          | cons nf nfs => simp [outputPhase, hros, hrcs, hnf]

/-- The fee block panics exactly when the input or the output list of the
witness is empty. -/
lemma feeGateCheck_none_iff (w : DPCUtxoWitness F G) (p : DPCUtxoPublicInput F G) :
    feeGateCheck w p = none ↔
      (w.entireInputs = [] ∨ w.entireOutputRecordsOpenings = []) := by
  cases hins : w.entireInputs with
  | nil => simp [feeGateCheck, hins]
  | cons i is =>
      cases hros : w.entireOutputRecordsOpenings with
      | nil => simp [feeGateCheck, hins, hros]
      | cons ro ros => simp [feeGateCheck, hins, hros]

/-- The concrete instance satisfies every gate of the built circuit. -/
lemma happy_buildCheck : buildCheck testGadgets 7 happyW happyP = some true := by decide

/-- Every iteration of the input loop after the first runs `prove_spend`
with the fee flag cleared; away from index 0 (or whenever the flag is
already cleared) the loop element is the `prove_spend` of the input and
nullifier at that index. -/
lemma spendLoop_get? (g : Gadgets F G) (native rootVar : F) :
    ∀ (ins : List (NoteInput F G)) (nfs : List F) (flag : Bool) (k : Nat),
      (flag = false ∨ 1 ≤ k) →
      (spendLoop g native rootVar ins nfs flag).get? k =
        (ins.get? k).bind fun input => (nfs.get? k).map fun nf =>
          prove_spend g input nf rootVar false native := by
  intro ins
  induction ins with
  | nil => intro nfs flag k _; simp [spendLoop]
  | cons i is ih =>
      intro nfs flag k hk
      cases nfs with
      | nil =>
          cases k with
          | zero => simp [spendLoop]
          | succ k' => simp [spendLoop]
      | cons nf nfs' =>
          cases k with
          | zero =>
              rcases hk with hk | hk
              · subst hk; simp [spendLoop]
              · omega
          | succ k' =>
              simp only [spendLoop, List.get?_cons_succ]
              exact ih nfs' false k' (Or.inl rfl)

/-- Claim C1, amended to the non-fee inputs (the claim fails at the fee
slot, index 0, whose hard gates are not disjoined with the dummy flag):
for every spent input at index k with 1 <= k in a built UTXO circuit, the
loop emits `prove_spend` with the fee flag cleared, and those constraints
are satisfied exactly when the dummy flag is 1 or all of the membership,
nullifier and diversifier checks hold; moreover replacing the public
nullifier of a non-dummy input by any field element different from the
derived nullifier falsifies the constraints. -/
theorem spend_nonfee_input_satisfiable_iff (g : Gadgets F G) (native : F)
    (w : DPCUtxoWitness F G) (p : DPCUtxoPublicInput F G) (k : Nat)
    (input : NoteInput F G) (nf : F) (hk : 1 ≤ k)
    (hin : w.entireInputs.get? k = some input)
    (hnf : p.inputNullifiers.get? k = some nf)
    (hd : input.ro.payload.isDummy = 0 ∨ input.ro.payload.isDummy = 1) :
    ((spendLoop g native p.root w.entireInputs p.inputNullifiers true).get? k =
        some (prove_spend g input nf p.root false native)) ∧
    ((prove_spend g input nf p.root false native).1 = true ↔
      (input.ro.payload.isDummy = 1 ∨
        (g.merkleRoot input.uid (g.deriveCommitment input.ro) input.merklePath = p.root ∧
         g.nullify input.ro input.pgk.nk = nf ∧
         g.deriveDiversifier input.pgk input.diversifierRandomizer = input.ro.addr))) ∧
    (input.ro.payload.isDummy ≠ 1 → ∀ nf2 : F, g.nullify input.ro input.pgk.nk ≠ nf2 →
      (prove_spend g input nf2 p.root false native).1 = false) := by
  refine ⟨?_, ?_, ?_⟩
  · rw [spendLoop_get? g native p.root _ _ true k (Or.inr hk), hin, hnf]
    rfl
  · rw [prove_spend_true_iff]
    rcases hd with hd | hd <;> simp [hd]
  · intro hne nf2 hdiff
    cases hb : (prove_spend g input nf2 p.root false native).1 with
    | false => rfl
    | true =>
        exfalso
        rcases ((prove_spend_true_iff g input nf2 p.root false native).mp hb).2.2.2.1
          with h1 | h1
        · exact hne h1
        · exact hdiff h1

/-- Witness for the amended claim C1: the dummy non-fee input of the
concrete instance satisfies its constraint block through the dummy arm of
the disjunction. -/
theorem spend_nonfee_input_satisfiable_iff_witness :
    (prove_spend testGadgets happyInput1 happyNf1 happyP.root false 7).1 = true :=
  ((spend_nonfee_input_satisfiable_iff testGadgets 7 happyW happyP 1 happyInput1 happyNf1
    (by decide) (by decide) (by decide) (by decide)).2.1).mpr (Or.inl (by decide))

/-- Counterexample to claim C1 as stated: at the fee slot (index 0, where
the loop runs `prove_spend` with the fee flag set) a dummy input makes the
emitted constraints unsatisfiable even though the dummy flag equals 1, so
the claimed equivalence is false for that spent input. -/
theorem spend_fee_input_dummy_unsat :
    ¬(((spendLoop testGadgets 7 0 [cexDummyFeeInput] [(0 : F101)] true).all
        (fun r => r.1) = true) ↔
      (cexDummyFeeInput.ro.payload.isDummy = 1 ∨
        (testGadgets.merkleRoot cexDummyFeeInput.uid
            (testGadgets.deriveCommitment cexDummyFeeInput.ro)
            cexDummyFeeInput.merklePath = 0 ∧
         testGadgets.nullify cexDummyFeeInput.ro cexDummyFeeInput.pgk.nk = 0 ∧
         testGadgets.deriveDiversifier cexDummyFeeInput.pgk
            cexDummyFeeInput.diversifierRandomizer = cexDummyFeeInput.ro.addr))) := by
  decide

/-- Claim C2: in a satisfied built circuit whose public nullifier and
output-commitment lists are nonempty (so that the loops reach slot 0),
the unconditional equality gates of the fee slot force the fee input and
the fee-change output to be non-dummy and of the native asset type; these
gates are not disjoined with the dummy flag, so any witness violating one
of them fails the circuit. -/
theorem fee_slot_hard_constraints (g : Gadgets F G) (native : F)
    (w : DPCUtxoWitness F G) (p : DPCUtxoPublicInput F G)
    (h : buildCheck g native w p = some true)
    (i0 : NoteInput F G) (hi : w.entireInputs.get? 0 = some i0)
    (o0 : RecordOpening F) (ho : w.entireOutputRecordsOpenings.get? 0 = some o0)
    (hn : p.inputNullifiers ≠ []) (hc : p.outputCommitments ≠ []) :
    i0.ro.payload.isDummy = 0 ∧ i0.ro.payload.data0 = native ∧
    o0.payload.isDummy = 0 ∧ o0.payload.data0 = native := by
  obtain ⟨hspend, -, hout, -, -, -⟩ := (buildCheck_some_true_iff g native w p).mp h
  obtain ⟨nf, nfs, hnfs⟩ := List.exists_cons_of_ne_nil hn
  obtain ⟨c, cs, hcs⟩ := List.exists_cons_of_ne_nil hc
  cases hins : w.entireInputs with
  | nil => rw [hins] at hi; simp at hi
  | cons a tl =>
      rw [hins, List.get?_cons_zero] at hi
      obtain rfl : a = i0 := by exact Option.some.inj hi
      cases houts : w.entireOutputRecordsOpenings with
      | nil => rw [houts] at ho; simp at ho
      | cons b ros =>
          rw [houts, List.get?_cons_zero] at ho
          obtain rfl : b = o0 := by exact Option.some.inj ho
          rw [hins, hnfs] at hspend
          simp only [spendLoop, List.all_cons, Bool.and_eq_true] at hspend
          have hfeeIn :=
            ((prove_spend_true_iff g a nf p.root true native).mp hspend.1).2.1 rfl
          rw [outputPhase] at hout
          rw [houts, hcs, hnfs] at hout
          simp only [List.get?_cons_zero, Option.map_some] at hout
          have hloop : outputLoop g native nf (b :: ros) (c :: cs) true 0 = true :=
            Option.some.inj hout
          simp only [outputLoop, Bool.and_eq_true] at hloop
          have hfeeOut :=
            ((prove_output_true_iff g b c true native 0 nf).mp hloop.1).2.2 rfl
          exact ⟨hfeeIn.1, hfeeIn.2, hfeeOut.1, hfeeOut.2⟩

/-- Witness for claim C2: the concrete satisfied instance has a non-dummy
native fee input and a non-dummy native fee-change output, as the theorem
forces. -/
theorem fee_slot_hard_constraints_witness :
    happyInput0.ro.payload.isDummy = 0 ∧ happyInput0.ro.payload.data0 = 7 ∧
    happyOut0.payload.isDummy = 0 ∧ happyOut0.payload.data0 = 7 :=
  fee_slot_hard_constraints testGadgets 7 happyW happyP happy_buildCheck
    happyInput0 (by decide) happyOut0 (by decide) (by decide) (by decide)

/-- Claim C3: the output subcircuit derives the nonce as the no-padding
sponge of the position index, the first public nullifier and the constant
1, and enforces it against the record nonce disjoined with the dummy bit;
consequently a non-dummy output whose nonce matches its own position
fails the constraints when rebuilt at any position whose sponge value
differs, and likewise when the first nullifier is changed so that the
sponge value no longer matches the nonce. -/
theorem output_nonce_binding (g : Gadgets F G) (ro : RecordOpening F) (rc native nf0 : F)
    (pos : Nat) :
    (prove_output g ro rc false native pos nf0 = true →
      (ro.payload.isDummy ≠ 0 ∨ g.sponge [(pos : F), nf0, 1] = ro.nonce)) ∧
    (ro.payload.isDummy = 0 → ro.nonce = g.sponge [(pos : F), nf0, 1] →
      ∀ pos2 : Nat, g.sponge [(pos2 : F), nf0, 1] ≠ g.sponge [(pos : F), nf0, 1] →
        prove_output g ro rc false native pos2 nf0 = false) ∧
    (ro.payload.isDummy = 0 →
      ∀ nf2 : F, g.sponge [(pos : F), nf2, 1] ≠ ro.nonce →
        prove_output g ro rc false native pos nf2 = false) := by
  refine ⟨?_, ?_, ?_⟩
  · intro h
    exact ((prove_output_true_iff g ro rc false native pos nf0).mp h).1
  · intro hd hnonce pos2 hdiff
    cases hb : prove_output g ro rc false native pos2 nf0 with
    | false => rfl
    | true =>
        exfalso
        rcases ((prove_output_true_iff g ro rc false native pos2 nf0).mp hb).1 with h1 | h1
        · exact h1 hd
        · exact hdiff (h1.trans hnonce)
  · intro hd nf2 hdiff
    cases hb : prove_output g ro rc false native pos nf2 with
    | false => rfl
    | true =>
        exfalso
        rcases ((prove_output_true_iff g ro rc false native pos nf2).mp hb).1 with h1 | h1
        · exact h1 hd
        · exact hdiff h1

/-- Witness for claim C3: the concrete fee-change output, whose nonce is
the sponge of position 0, fails its constraints when rebuilt at position
2, where the concrete sponge value differs. -/
theorem output_nonce_binding_witness :
    prove_output testGadgets happyOut0 happyOutCm0 false 7 2 happyNf0 = false :=
  (output_nonce_binding testGadgets happyOut0 happyOutCm0 7 happyNf0 0).2.1
    (by decide) (by decide) 2 (by decide)

/-- Claim C4: the aggregated-authorization-key gate of the built circuit
is satisfied exactly when the public key equals the sum, over all inputs
(fee input and dummy inputs included, since the randomized key is
computed and folded unconditionally), of `ak + rho_auth`, the fold
starting from the neutral point; the comparison is group-element equality
(`point_equal_gate` on both coordinates). -/
theorem auth_key_aggregation_iff (g : Gadgets F G) (native : F)
    (w : DPCUtxoWitness F G) (p : DPCUtxoPublicInput F G)
    (hlen : p.inputNullifiers.length = w.entireInputs.length) :
    derivedAuthKeyCheck g native w p = true ↔
      p.authorizationVerificationKey =
        (w.entireInputs.map
          (fun input => input.pgk.ak + input.authorizationRandomizer)).sum := by
  unfold derivedAuthKeyCheck
  rw [foldl_add_snd, spendLoop_map_ak g native p.root _ _ true hlen, zero_add]
  simp only [decide_eq_true_eq]

/-- Witness for claim C4: the concrete instance's public key is the sum
of its two randomized keys, so the gate evaluates to true. -/
theorem auth_key_aggregation_iff_witness :
    derivedAuthKeyCheck testGadgets 7 happyW happyP = true :=
  (auth_key_aggregation_iff testGadgets 7 happyW happyP (by decide)).mpr (by decide)

/-- Claim C5: for any witness and public input with at least one input
and one output, the fee gate is satisfied exactly when the field equation
`data[1] of the fee input - data[1] of the fee change = fee` holds — exact
subtraction in the prime field, with no range check, so wrap-around values
are accepted. -/
theorem fee_balance_field_iff (w : DPCUtxoWitness F G) (p : DPCUtxoPublicInput F G)
    (i0 : NoteInput F G) (o0 : RecordOpening F)
    (hi : w.entireInputs.get? 0 = some i0)
    (ho : w.entireOutputRecordsOpenings.get? 0 = some o0) :
    feeGateCheck w p = some true ↔
      i0.ro.payload.data1 - o0.payload.data1 = p.fee := by
  unfold feeGateCheck
  rw [hi, ho]
  simp

/-- Witness for claim C5, exhibiting wrap-around: amounts 0 and 1 with
public fee 100 = 0 - 1 in the field of 101 elements satisfy the gate. -/
theorem fee_balance_field_iff_witness :
    feeGateCheck wrapW wrapP = some true ∧ (0 : F101) - 1 = (100 : F101) :=
  ⟨(fee_balance_field_iff wrapW wrapP wrapInput wrapOut (by decide) (by decide)).mpr
    (by decide), by decide⟩

/-- With equal lengths on both sides, the local-data message of the built
circuit is the derived input record commitments, then the public output
commitments, then the memo. -/
lemma compressedLocalData_eq (g : Gadgets F G) (native : F) (w : DPCUtxoWitness F G)
    (p : DPCUtxoPublicInput F G)
    (h1 : p.inputNullifiers.length = w.entireInputs.length)
    (h2 : p.outputCommitments.length = w.entireOutputRecordsOpenings.length) :
    compressedLocalData g native w p =
      w.entireInputs.map (fun input => g.deriveCommitment input.ro)
        ++ p.outputCommitments ++ p.memo := by
  unfold compressedLocalData
  rw [spendLoop_map_rc g native p.root _ _ true h1, zip_map_snd _ _ h2]

/-- Claim C6: the local-data gate commits, with the local-data blinding,
to exactly the in-circuit derived input record commitments (in input
order), then the public output commitment variables (in output order),
then the memo — nothing else, in particular not the fee — and compares
the result with the public local-data commitment. -/
theorem local_data_commitment_exact (g : Gadgets F G) (native : F)
    (w : DPCUtxoWitness F G) (p : DPCUtxoPublicInput F G)
    (h1 : p.inputNullifiers.length = w.entireInputs.length)
    (h2 : p.outputCommitments.length = w.entireOutputRecordsOpenings.length) :
    localDataCheck g native w p = true ↔
      g.commit (w.entireInputs.map (fun input => g.deriveCommitment input.ro)
          ++ p.outputCommitments ++ p.memo) w.blindingLocalData
        = p.commitmentLocalData := by
  unfold localDataCheck
  rw [compressedLocalData_eq g native w p h1 h2]
  simp only [decide_eq_true_eq]

/-- Witness for claim C6: the gate evaluates to true on the concrete
instance, whose public commitment was formed over exactly that message. -/
theorem local_data_commitment_exact_witness :
    localDataCheck testGadgets 7 happyW happyP = true :=
  (local_data_commitment_exact testGadgets 7 happyW happyP (by decide) (by decide)).mpr
    (by decide)

/-- Claim C7: the predicates gate commits, with the predicates blinding,
to the vector holding the death pid of every input except index 0 (in
input order) followed by the birth pid of every output except index 0 (in
output order) — input side first, fee slot skipped on both sides — and
compares the result with the public predicates commitment.  The first
three conjuncts pin the length and every entry of the committed vector;
the last states the gate equation. -/
theorem predicates_commitment_layout (g : Gadgets F G) (w : DPCUtxoWitness F G)
    (p : DPCUtxoPublicInput F G) :
    (pidsList w).length =
      (w.entireInputs.length - 1) + (w.entireOutputRecordsOpenings.length - 1) ∧
    (∀ k, k < w.entireInputs.length - 1 →
      (pidsList w).get? k =
        (w.entireInputs.get? (k + 1)).map (fun input => input.ro.pidDeath)) ∧
    (∀ k, k < w.entireOutputRecordsOpenings.length - 1 →
      (pidsList w).get? ((w.entireInputs.length - 1) + k) =
        (w.entireOutputRecordsOpenings.get? (k + 1)).map (fun ro => ro.pidBirth)) ∧
    (predicatesCheck g w p = true ↔
      g.commit (pidsList w) w.blindingPredicates = p.commitmentPredicates) := by
  refine ⟨?_, ?_, ?_, ?_⟩
  · simp [pidsList]
  · intro k hk
    unfold pidsList
    rw [List.get?_append (by simpa using hk), List.get?_map, List.get?_drop,
      Nat.add_comm 1 k]
  · intro k hk
    unfold pidsList
    rw [List.get?_append_right (by simp), List.get?_map, List.get?_drop]
    simp only [List.length_map, List.length_drop]
    rw [Nat.add_sub_cancel_left, Nat.add_comm 1 k]
  · simp [predicatesCheck]

/-- Witness for claim C7: on the concrete instance, slot 0 of the
committed vector is the death pid of input 1. -/
theorem predicates_commitment_layout_witness :
    (pidsList happyW).get? 0 =
      (happyW.entireInputs.get? 1).map (fun input => input.ro.pidDeath) :=
  (predicates_commitment_layout testGadgets happyW happyP).2.1 0 (by decide)

/-- Claim C8, amended to the spent inputs: the input subcircuit emits a
booleanity gate on every spent input's dummy flag, so in a satisfied
built circuit (with matching list lengths) every input's flag is 0 or 1.
The output subcircuit emits no such gate — its dummy bit comes from
`check_is_zero` negated — so the restriction does not extend to outputs. -/
theorem input_dummy_flag_boolean (g : Gadgets F G) (native : F)
    (w : DPCUtxoWitness F G) (p : DPCUtxoPublicInput F G)
    (h : buildCheck g native w p = some true)
    (hlen : p.inputNullifiers.length = w.entireInputs.length) :
    ∀ input ∈ w.entireInputs,
      input.ro.payload.isDummy = 0 ∨ input.ro.payload.isDummy = 1 := by
  intro input hmem
  obtain ⟨hspend, -, -, -, -, -⟩ := (buildCheck_some_true_iff g native w p).mp h
  obtain ⟨nf, f, hps⟩ := spendLoop_all_mem g native p.root _ _ true hlen hspend input hmem
  exact (boolGate_iff _).mp
    ((prove_spend_true_iff g input nf p.root f native).mp hps).1

/-- Witness for the amended claim C8, applied to the dummy input of the
concrete satisfied instance. -/
theorem input_dummy_flag_boolean_witness :
    happyInput1.ro.payload.isDummy = 0 ∨ happyInput1.ro.payload.isDummy = 1 :=
  input_dummy_flag_boolean testGadgets 7 happyW happyP happy_buildCheck (by decide)
    happyInput1 (by decide)

/-- Counterexample to claim C8 as stated: the concrete instance satisfies
every gate of the built circuit although its second output's dummy flag
is the field element 2, which is neither 0 nor 1 — no booleanity
constraint is emitted for output records. -/
theorem output_dummy_flag_nonboolean_sat :
    buildCheck testGadgets 7 happyW happyP = some true ∧
    happyW.entireOutputRecordsOpenings.get? 1 = some happyOut1 ∧
    happyOut1.payload.isDummy = 2 ∧ (2 : F101) ≠ 0 ∧ (2 : F101) ≠ 1 :=
  ⟨happy_buildCheck, by decide, by decide, by decide, by decide⟩

/-- Claim C9, amended: when `build_for_preprocessing` returns an error,
either it is the `InternalError` wrapping of a circuit-build failure, or
it is the error of `from_witness`, which the question-mark operator
propagates unchanged under whatever variant it carries. -/
theorem preprocessing_error_wrapping {P C : Type} (fw : Except DPCApiError P)
    (br : P → Except String C) (diagnostic : String) (e : DPCApiError)
    (h : build_for_preprocessing fw br diagnostic = .error e) :
    e = .InternalError diagnostic ∨ fw = .error e := by
  cases fw with
  | error e0 =>
      right
      simp only [build_for_preprocessing] at h
      rw [Except.error.injEq] at h
      rw [h]
  | ok pv =>
      left
      cases hb : br pv with
      | error s =>
          simp only [build_for_preprocessing, hb] at h
          exact (Except.error.injEq _ _).mp h |>.symm
      | ok c =>
          simp only [build_for_preprocessing, hb] at h
          exact absurd h (by simp)

/-- Witness for the amended claim C9: with a successful `from_witness`
and a failing circuit build, the returned error is the wrapped
`InternalError`, and the theorem applies to it. -/
theorem preprocessing_error_wrapping_witness :
    DPCApiError.InternalError ("preprocessing") = .InternalError ("preprocessing") ∨
      (Except.ok () : Except DPCApiError Unit) =
        .error (.InternalError ("preprocessing")) :=
  preprocessing_error_wrapping (Except.ok ())
    (fun _ : Unit => (Except.error ("plonk") : Except String Unit))
    ("preprocessing") (DPCApiError.InternalError ("preprocessing")) rfl

/-- Counterexample to claim C9 as stated: a failure of `from_witness`
(the derivation of the public input from the dummy witness) is returned
by `build_for_preprocessing` under its own variant, here `GeneralError`,
not under `InternalError`. -/
theorem preprocessing_error_passthrough_cex :
    build_for_preprocessing (Except.error (DPCApiError.GeneralError ("boom")))
        (fun _ : Unit => Except.ok ()) ("diag") =
      Except.error (DPCApiError.GeneralError ("boom")) ∧
    isInternalError (DPCApiError.GeneralError ("boom")) = false :=
  ⟨rfl, rfl⟩

/-- Claim C10, amended: `build` panics (models as `none`) exactly when
the witness input list is empty, or the witness output list is empty, or
the public nullifier list is empty while the output loop executes (both
the output openings and the public output commitments are nonempty); the
`n >= 1` invariant is an unchecked precondition, not a returned error.
With both public lists empty but nonempty witness lists, `nullifiers[0]`
is never read and `build` completes. -/
theorem build_index_panic_iff (g : Gadgets F G) (native : F)
    (w : DPCUtxoWitness F G) (p : DPCUtxoPublicInput F G) :
    buildCheck g native w p = none ↔
      (w.entireInputs = [] ∨ w.entireOutputRecordsOpenings = [] ∨
        (p.inputNullifiers = [] ∧ w.entireOutputRecordsOpenings ≠ [] ∧
          p.outputCommitments ≠ [])) := by
  rw [buildCheck_none_iff, outputPhase_none_iff, feeGateCheck_none_iff]
  tauto

/-- Counterexample to claim C10 as stated: with a public input whose
nullifier list is empty (and whose output-commitment list is also empty)
and a nonempty witness, `build` does not panic — it completes, because
the zipped loops run zero iterations and `nullifiers[0]` is never
indexed. -/
theorem build_no_panic_empty_public_lists :
    emptyListsP.inputNullifiers = [] ∧ wrapW.entireInputs ≠ [] ∧
    wrapW.entireOutputRecordsOpenings ≠ [] ∧
    buildCheck testGadgets 7 wrapW emptyListsP ≠ none := by
  refine ⟨rfl, by decide, by decide, by decide⟩
